import Mathlib

/-!
Verification of the Discord MCP API repository (`main.py`, `discord_api.py`).

The development shallowly embeds the Python source:

* `Json` models Python/JSON values as they flow through the dispatcher
  (dicts are ordered association lists, as produced by `json` parsing).
* Python operations that can raise (`x.get`, `x["k"]`, `for ... in x`,
  `"k" in x`) are modelled as `Except String _` computations whose error
  string stands for the exception's message.
* `DiscordAPI.send_message`, `DiscordAPI.get_channel_messages` and
  `DiscordAPI.get_guild_channels` embed the upstream client; the network
  is abstracted by an `HttpOutcome` describing what `requests` did.
* `handle_mcp` embeds the `/mcp` route: it consumes the parsed request
  body (`Except String Json`, an error meaning `request.json()` raised),
  a configuration (the optional default channel) and an oracle giving the
  upstream client's answer to each call, and returns the HTTP response
  together with the list of upstream calls performed.
-/

/-- JSON / Python values.  Objects keep insertion order, like Python dicts. -/
inductive Json where
  | null
  | bool (b : Bool)
  | num (n : Int)
  | str (s : String)
  | arr (xs : List Json)
  | obj (kvs : List (String × Json))

/-- Python type name of a value, as it appears in exception messages. -/
def Json.typeName : Json → String
  | .null => "NoneType"
  | .bool _ => "bool"
  | .num _ => "int"
  | .str _ => "str"
  | .arr _ => "list"
  | .obj _ => "dict"

/-- Python truthiness (`if x:` / `x or y`). -/
def Json.truthy : Json → Bool
  | .null => false
  | .bool b => b
  | .num n => n != 0
  | .str s => !(s == "")
  | .arr xs => !xs.isEmpty
  | .obj kvs => !kvs.isEmpty

/-- Python `x == s` for a string literal `s`: true exactly when `x` is that
string (no cross-type equality between `str` and other types in Python). -/
def isPyStrEq (x : Json) (s : String) : Bool :=
  match x with
  | .str t => t == s
  | _ => false

/-- `d.get(k, default)` on a value known to be a dict. -/
def dictGetD (kvs : List (String × Json)) (k : String) (d : Json) : Json :=
  match kvs.find? (fun p => p.1 == k) with
  | some p => p.2
  | none => d

/-- `x.get(k, default)`: raises `AttributeError` when `x` is not a dict. -/
def pyGetD (x : Json) (k : String) (d : Json) : Except String Json :=
  match x with
  | .obj kvs => .ok (dictGetD kvs k d)
  | j => .error ("AttributeError: " ++ j.typeName ++ " object has no attribute get")

mutual
/-- Python `repr` of a value (used by `str()` on containers). -/
def Json.pyRepr : Json → String
  | .null => "None"
  | .bool true => "True"
  | .bool false => "False"
  | .num n => toString n
  | .str s => "\x27" ++ s ++ "\x27"
  | .arr xs => "[" ++ Json.pyReprList xs ++ "]"
  | .obj kvs => "\x7b" ++ Json.pyReprKVs kvs ++ "\x7d"

/-- `repr` of the comma-separated items of a list. -/
def Json.pyReprList : List Json → String
  | [] => ""
  | [x] => Json.pyRepr x
  | x :: y :: xs => Json.pyRepr x ++ ", " ++ Json.pyReprList (y :: xs)

/-- `repr` of the comma-separated items of a dict. -/
def Json.pyReprKVs : List (String × Json) → String
  | [] => ""
  | [(k, v)] => "\x27" ++ k ++ "\x27: " ++ Json.pyRepr v
  | (k, v) :: q :: xs =>
    "\x27" ++ k ++ "\x27: " ++ Json.pyRepr v ++ ", " ++ Json.pyReprKVs (q :: xs)
end

/-- `str(x)` as used by Python f-string interpolation. -/
def Json.pyStr : Json → String
  | .str s => s
  | j => j.pyRepr

/-- Python `needle in hay` for strings: substring containment. -/
def strContains (hay needle : String) : Bool :=
  (hay.splitOn needle).length != 1

/-- Python `k in x` for a string `k` (`"error" in result` in `main.py`):
key membership for dicts, element equality for lists, substring test for
strings, `TypeError` otherwise. -/
def pyIn (needle : String) (x : Json) : Except String Bool :=
  match x with
  | .obj kvs => .ok (kvs.any (fun p => p.1 == needle))
  | .arr xs => .ok (xs.any (fun v => isPyStrEq v needle))
  | .str s => .ok (strContains s needle)
  | j => .error ("TypeError: argument of type " ++ j.typeName ++ " is not iterable")

/-- Python `x[k]` for a string key `k` (`result["error"]` in `main.py`). -/
def pyIndexStr (x : Json) (k : String) : Except String Json :=
  match x with
  | .obj kvs =>
    match kvs.find? (fun p => p.1 == k) with
    | some p => .ok p.2
    | none => .error ("KeyError: " ++ k)
  | j => .error ("TypeError: " ++ j.typeName ++ " indices must be integers")

/-- Python `for v in x`: the sequence of iterated values (dicts iterate
their keys, strings their characters), or a `TypeError`. -/
def pyIter (x : Json) : Except String (List Json) :=
  match x with
  | .arr xs => .ok xs
  | .obj kvs => .ok (kvs.map (fun p => Json.str p.1))
  | .str s => .ok (s.toList.map (fun c => Json.str (String.mk [c])))
  | j => .error ("TypeError: " ++ j.typeName ++ " object is not iterable")

/-- `isinstance(result, dict) and "error" in result`, together with the
value `result["error"]` read in that branch of `main.py`. -/
def dictErrorValue (x : Json) : Option Json :=
  match x with
  | .obj kvs => (kvs.find? (fun p => p.1 == "error")).map (fun p => p.2)
  | _ => none

/-! ### Upstream client (`DiscordAPI`, identical in `main.py` and
`discord_api.py` apart from how it logs) -/

/-- What the single `requests` call inside a client operation did:
either it raised (network failure, etc.), or it produced a response with
an HTTP status, the message `raise_for_status` would use, and the result
of parsing the body as JSON (`.error` = `JSONDecodeError`). -/
inductive HttpOutcome where
  | exn (msg : String)
  | resp (status : Nat) (httpErrMsg : String) (body : Except String Json)

/-- The uniform failure value `{"error": str(e)}` returned by every
client operation's `except` clause. -/
def errorDict (m : String) : Json :=
  Json.obj [("error", Json.str m)]

/-- Values `len()` accepts; `len` on other values raises `TypeError`,
which the client operations hit in their logging line. -/
def Json.hasLen : Json → Bool
  | .arr _ => true
  | .obj _ => true
  | .str _ => true
  | _ => false

/-- Message of the `TypeError` raised by `len()` on an unsized value. -/
def noLenMsg (j : Json) : String :=
  "TypeError: object of type " ++ j.typeName ++ " has no len()"

/-- `requests.Response.raise_for_status` raises exactly for statuses in
`[400, 600)`. -/
def raiseForStatus (status : Nat) : Bool :=
  decide (400 ≤ status ∧ status < 600)

/-- `DiscordAPI.send_message` (`main.py` lines 41-64): POST, then
`raise_for_status`, then return `response.json()`; any exception is
converted to `{"error": str(e)}`. -/
def DiscordAPI.send_message (out : HttpOutcome) : Json :=
  match out with
  | .exn m => errorDict m
  | .resp status httpErrMsg body =>
    if raiseForStatus status then errorDict httpErrMsg
    else
      match body with
      | .error m => errorDict m
      | .ok j => j

/-- `DiscordAPI.get_channel_messages` (`main.py` lines 66-86): GET, then
`raise_for_status`, then a log line evaluating `len(response.json())`
(raising `TypeError` on an unsized payload), then return
`response.json()`; any exception is converted to `{"error": str(e)}`. -/
def DiscordAPI.get_channel_messages (out : HttpOutcome) : Json :=
  match out with
  | .exn m => errorDict m
  | .resp status httpErrMsg body =>
    if raiseForStatus status then errorDict httpErrMsg
    else
      match body with
      | .error m => errorDict m
      | .ok j => if j.hasLen then j else errorDict (noLenMsg j)

/-- `DiscordAPI.get_guild_channels` (`main.py` lines 88-107): same shape
as `get_channel_messages`. -/
def DiscordAPI.get_guild_channels (out : HttpOutcome) : Json :=
  match out with
  | .exn m => errorDict m
  | .resp status httpErrMsg body =>
    if raiseForStatus status then errorDict httpErrMsg
    else
      match body with
      | .error m => errorDict m
      | .ok j => if j.hasLen then j else errorDict (noLenMsg j)

/-- The state a constructed `DiscordAPI` instance holds. -/
structure DiscordState where
  token : String
  api_base : String
  authHeader : String

/-- `DiscordAPI.__init__` (`main.py` lines 32-39): its log line evaluates
`token[:5]`, which raises `TypeError` when the token is `None`
(`DISCORD_TOKEN` absent from the environment); `main.py` line 110 runs
`discord_api = DiscordAPI(DISCORD_TOKEN)` at module import time. -/
def DiscordAPI.init (token : Option String) : Except String DiscordState :=
  match token with
  | none => .error "TypeError: NoneType object is not subscriptable"
  | some t =>
    .ok { token := t
          api_base := "https://discord.com/api/v10"
          authHeader := "Bot " ++ t }


/-! ### MCP dispatcher (`handle_mcp`, `main.py` lines 390-542) -/

/-- One call the dispatcher makes to the upstream client, with the
exact Python values passed as arguments. -/
inductive UpstreamCall where
  | send (channel_id content : Json)
  | getMessages (channel_id limit : Json)

/-- An HTTP response produced by the route: FastAPI returns status 200
for a plain dict return, and the handler explicitly builds a status-500
`JSONResponse` in its `except` clause. -/
structure HttpResp where
  status : Nat
  body : Json

/-- `{"jsonrpc": "2.0", "id": rid, "error": {"code": c, "message": m}}`
with an arbitrary Python value as message (`result["error"]`). -/
def rpcErrorJ (rid : Json) (code : Int) (msg : Json) : Json :=
  Json.obj [("jsonrpc", Json.str "2.0"), ("id", rid),
    ("error", Json.obj [("code", Json.num code), ("message", msg)])]

/-- JSON-RPC error object with a string message. -/
def rpcError (rid : Json) (code : Int) (msg : String) : Json :=
  rpcErrorJ rid code (Json.str msg)

/-- `{"jsonrpc": "2.0", "id": rid, "result": res}`. -/
def mkResult (rid : Json) (res : Json) : Json :=
  Json.obj [("jsonrpc", Json.str "2.0"), ("id", rid), ("result", res)]

/-- The `serverInfo` literal of the `initialize` branch. -/
def serverInfo : Json :=
  Json.obj [("name", Json.str "Discord MCP API"), ("version", Json.str "1.0.0")]

/-- The static `capabilities` literal of the `initialize` branch
(`main.py` lines 474-511). -/
def capabilities : Json :=
  Json.obj [("tools", Json.obj [
    ("send_message", Json.obj [
      ("description", Json.str "Envia uma mensagem para um canal do Discord"),
      ("parameters", Json.obj [
        ("type", Json.str "object"),
        ("properties", Json.obj [
          ("channel_id", Json.obj [
            ("type", Json.str "string"),
            ("description", Json.str "ID do canal do Discord (opcional se canal padrão configurado)")]),
          ("content", Json.obj [
            ("type", Json.str "string"),
            ("description", Json.str "Conteúdo da mensagem")])]),
        ("required", Json.arr [Json.str "content"])])]),
    ("get_messages", Json.obj [
      ("description", Json.str "Obtém mensagens recentes de um canal do Discord"),
      ("parameters", Json.obj [
        ("type", Json.str "object"),
        ("properties", Json.obj [
          ("channel_id", Json.obj [
            ("type", Json.str "string"),
            ("description", Json.str "ID do canal do Discord")]),
          ("limit", Json.obj [
            ("type", Json.str "integer"),
            ("description", Json.str "Número máximo de mensagens (padrão: 10)")])]),
        ("required", Json.arr [Json.str "channel_id"])])])])]

/-- `arguments.get("channel_id") or DEFAULT_DISCORD_CHANNEL_ID` followed by
the truthiness test: Python `or` keeps the left value when truthy, else the
configured default (`None` when the environment variable is unset). -/
def resolveChannel (cfg : Option String) (explicitChannel : Json) : Json :=
  if explicitChannel.truthy then explicitChannel
  else
    match cfg with
    | some s => Json.str s
    | none => Json.null

/-- The per-message simplification of the MCP `get_messages` branch
(`main.py` lines 446-456).  The first `.get` that runs on a non-dict
raises `AttributeError`: with a non-dict message this is `msg.get("id")`,
with a dict message but a non-dict `author` value it is the `.get` on that
value.  The dict literal built is `{"id", "content", "author": {"username",
"bot"}, "timestamp"}`, with `None` for absent keys and `False` as the
`bot` default. -/
def simplifyMsgMCP (msg : Json) : Except String Json :=
  match msg with
  | .obj mkvs =>
    match dictGetD mkvs "author" (Json.obj []) with
    | .obj akvs =>
      .ok (Json.obj [
        ("id", dictGetD mkvs "id" Json.null),
        ("content", dictGetD mkvs "content" Json.null),
        ("author", Json.obj [
          ("username", dictGetD akvs "username" Json.null),
          ("bot", dictGetD akvs "bot" (Json.bool false))]),
        ("timestamp", dictGetD mkvs "timestamp" Json.null)])
    | a => .error ("AttributeError: " ++ a.typeName ++ " object has no attribute get")
  | j => .error ("AttributeError: " ++ j.typeName ++ " object has no attribute get")

/-- The per-message simplification of the REST `/get-messages` endpoint
(`main.py` lines 296-307): same as `simplifyMsgMCP` but the author object
additionally carries `"id": msg.get("author", {}).get("id")` first. -/
def simplifyMsgREST (msg : Json) : Except String Json :=
  match msg with
  | .obj mkvs =>
    match dictGetD mkvs "author" (Json.obj []) with
    | .obj akvs =>
      .ok (Json.obj [
        ("id", dictGetD mkvs "id" Json.null),
        ("content", dictGetD mkvs "content" Json.null),
        ("author", Json.obj [
          ("id", dictGetD akvs "id" Json.null),
          ("username", dictGetD akvs "username" Json.null),
          ("bot", dictGetD akvs "bot" (Json.bool false))]),
        ("timestamp", dictGetD mkvs "timestamp" Json.null)])
    | a => .error ("AttributeError: " ++ a.typeName ++ " object has no attribute get")
  | j => .error ("AttributeError: " ++ j.typeName ++ " object has no attribute get")

/-- The `for msg in result: simplified_messages.append(...)` loop: applies
`f` to each element in order, aborting at the first exception. -/
def exceptMap (f : Json → Except String Json) : List Json → Except String (List Json)
  | [] => .ok []
  | x :: xs =>
    match f x with
    | .error e => .error e
    | .ok y =>
      match exceptMap f xs with
      | .error e => .error e
      | .ok ys => .ok (y :: ys)

/-- The body of `handle_mcp`'s `try` block on a parsed request body:
`Except.error` means a Python exception escaped to the `except` clause.
The second component lists the upstream calls made (also when a later
step raises). -/
def dispatch (cfg : Option String) (api : UpstreamCall → Json) (body : Json) :
    Except String Json × List UpstreamCall :=
  match body with
  | .obj kvs =>
    let method := dictGetD kvs "method" Json.null
    let params := dictGetD kvs "params" (Json.obj [])
    let request_id := dictGetD kvs "id" (Json.str "unknown")
    if isPyStrEq method "invoke" then
      match pyGetD params "method" Json.null with
      | .error e => (.error e, [])
      | .ok tool_method =>
        match pyGetD params "arguments" (Json.obj []) with
        | .error e => (.error e, [])
        | .ok arguments =>
          if isPyStrEq tool_method "send_message" then
            match pyGetD arguments "channel_id" Json.null with
            | .error e => (.error e, [])
            | .ok explicitChannel =>
              let channel_id := resolveChannel cfg explicitChannel
              if !channel_id.truthy then
                (.ok (rpcError request_id (-32000)
                  "Canal não especificado e canal padrão não configurado"), [])
              else
                match pyGetD arguments "content" Json.null with
                | .error e => (.error e, [])
                | .ok content =>
                  let result := api (.send channel_id content)
                  match pyIn "error" result with
                  | .error e => (.error e, [.send channel_id content])
                  | .ok true =>
                    match pyIndexStr result "error" with
                    | .error e => (.error e, [.send channel_id content])
                    | .ok msg =>
                      (.ok (rpcErrorJ request_id (-32000) msg),
                       [.send channel_id content])
                  | .ok false =>
                    (.ok (mkResult request_id (Json.obj [
                      ("success", Json.bool true),
                      ("message", Json.str "Mensagem enviada com sucesso")])),
                     [.send channel_id content])
          else if isPyStrEq tool_method "get_messages" then
            match pyGetD arguments "channel_id" Json.null with
            | .error e => (.error e, [])
            | .ok channel_id =>
              match pyGetD arguments "limit" (Json.num 10) with
              | .error e => (.error e, [])
              | .ok limit =>
                let result := api (.getMessages channel_id limit)
                match dictErrorValue result with
                | some msg =>
                  (.ok (rpcErrorJ request_id (-32000) msg),
                   [.getMessages channel_id limit])
                | none =>
                  match pyIter result with
                  | .error e => (.error e, [.getMessages channel_id limit])
                  | .ok msgs =>
                    match exceptMap simplifyMsgMCP msgs with
                    | .error e => (.error e, [.getMessages channel_id limit])
                    | .ok simplified =>
                      (.ok (mkResult request_id (Json.obj [
                        ("success", Json.bool true),
                        ("messages", Json.arr simplified)])),
                       [.getMessages channel_id limit])
          else
            (.ok (rpcError request_id (-32601)
              ("Método não encontrado: " ++ tool_method.pyStr)), [])
    else if isPyStrEq method "initialize" then
      (.ok (mkResult request_id (Json.obj [
        ("serverInfo", serverInfo), ("capabilities", capabilities)])), [])
    else
      (.ok (rpcError request_id (-32601)
        ("Método MCP não encontrado: " ++ method.pyStr)), [])
  | j => (.error ("AttributeError: " ++ j.typeName ++ " object has no attribute get"), [])

/-- The status-500 body built in `handle_mcp`'s `except` clause
(`main.py` lines 535-542); note the id is the literal `"unknown"`. -/
def internalError (e : String) : Json :=
  Json.obj [("jsonrpc", Json.str "2.0"), ("id", Json.str "unknown"),
    ("error", Json.obj [("code", Json.num (-32603)),
      ("message", Json.str ("Erro interno: " ++ e))])]

/-- The `/mcp` route: parse failure or any exception inside the `try`
block becomes the status-500 internal error response. -/
def handle_mcp (cfg : Option String) (api : UpstreamCall → Json)
    (reqBody : Except String Json) : HttpResp × List UpstreamCall :=
  match reqBody with
  | .error e => (⟨500, internalError e⟩, [])
  | .ok body =>
    match dispatch cfg api body with
    | (.ok resp, calls) => (⟨200, resp⟩, calls)
    | (.error e, calls) => (⟨500, internalError e⟩, calls)

/-- The `id` field of a response body. -/
def lookupId (x : Json) : Option Json :=
  match x with
  | .obj kvs => (kvs.find? (fun p => p.1 == "id")).map (fun p => p.2)
  | _ => none

/-- `Json.str s` is a non-empty string value. -/
def Json.isNonEmptyStr : Json → Bool
  | .str s => !(s == "")
  | _ => false

/-! ### Helper lemmas -/

theorem isPyStrEq_eq_false {x : Json} {s : String} (h : x ≠ Json.str s) :
    isPyStrEq x s = false := by
  cases x <;> simp_all [isPyStrEq]

theorem isPyStrEq_str (t s : String) : isPyStrEq (Json.str t) s = (t == s) := rfl

theorem lookupId_mkResult (rid r : Json) : lookupId (mkResult rid r) = some rid := rfl

theorem lookupId_rpcErrorJ (rid : Json) (c : Int) (m : Json) :
    lookupId (rpcErrorJ rid c m) = some rid := rfl

theorem lookupId_internalError (e : String) :
    lookupId (internalError e) = some (Json.str "unknown") := rfl

theorem exceptMap_ok_length {f : Json → Except String Json} :
    ∀ {xs ys : List Json}, exceptMap f xs = .ok ys → ys.length = xs.length := by
  intro xs
  induction xs with
  | nil => intro ys h; simp [exceptMap] at h; simp [← h]
  | cons x xs ih =>
    intro ys h
    simp only [exceptMap] at h
    cases hx : f x with
    | error e => simp [hx] at h
    | ok y =>
      simp only [hx] at h
      cases hxs : exceptMap f xs with
      | error e => simp [hxs] at h
      | ok ys2 =>
        simp only [hxs] at h
        cases h
        simp [ih hxs]

theorem simplifyMsgMCP_shape {msg s : Json} (h : simplifyMsgMCP msg = .ok s) :
    ∃ i c u b t, s = Json.obj [("id", i), ("content", c),
      ("author", Json.obj [("username", u), ("bot", b)]), ("timestamp", t)] := by
  cases msg <;> simp only [simplifyMsgMCP] at h
  case obj mkvs =>
    cases ha : dictGetD mkvs "author" (Json.obj []) <;> simp only [ha] at h
    case obj akvs =>
      rw [Except.ok.injEq] at h
      exact ⟨_, _, _, _, _, h.symm⟩
    all_goals exact absurd h (by simp)
  all_goals exact absurd h (by simp)

theorem exceptMap_simplify_shape {msgs simplified : List Json}
    (h : exceptMap simplifyMsgMCP msgs = .ok simplified) :
    ∀ s ∈ simplified, ∃ i c u b t, s = Json.obj [("id", i), ("content", c),
      ("author", Json.obj [("username", u), ("bot", b)]), ("timestamp", t)] := by
  induction msgs generalizing simplified with
  | nil =>
    simp only [exceptMap, Except.ok.injEq] at h
    intro s hs
    rw [← h] at hs
    simp at hs
  | cons x xs ih =>
    simp only [exceptMap] at h
    cases hx : simplifyMsgMCP x with
    | error e => simp [hx] at h
    | ok y =>
      simp only [hx] at h
      cases hxs : exceptMap simplifyMsgMCP xs with
      | error e => simp [hxs] at h
      | ok ys =>
        simp only [hxs] at h
        cases h
        intro s hs
        rcases List.mem_cons.mp hs with hs | hs
        · exact hs ▸ simplifyMsgMCP_shape hx
        · exact ih hxs s hs

theorem truthy_str_ne {c : String} (h : c ≠ "") : (Json.str c).truthy = true := by
  simp [Json.truthy, h]

theorem pyIn_errorDict (s : String) : pyIn "error" (errorDict s) = .ok true := rfl

theorem pyIndexStr_errorDict (s : String) :
    pyIndexStr (errorDict s) "error" = .ok (Json.str s) := rfl

theorem dictErrorValue_errorDict (s : String) :
    dictErrorValue (errorDict s) = some (Json.str s) := rfl

theorem dispatch_ok_id (cfg : Option String) (api : UpstreamCall → Json)
    (kvs : List (String × Json)) (r : Json) (calls : List UpstreamCall)
    (h : dispatch cfg api (Json.obj kvs) = (.ok r, calls)) :
    lookupId r = some (dictGetD kvs "id" (Json.str "unknown")) := by
  simp only [dispatch] at h
  repeat' split at h
  all_goals simp only [Prod.mk.injEq, Except.ok.injEq] at h
  all_goals first
    | exact absurd h.1 (by simp)
    | (obtain ⟨h1, h2⟩ := h; subst h1; rfl)

theorem dispatch_ok_obj (cfg : Option String) (api : UpstreamCall → Json)
    (body : Json) (r : Json) (calls : List UpstreamCall)
    (h : dispatch cfg api body = (.ok r, calls)) :
    ∃ kvs, body = Json.obj kvs := by
  cases body <;> simp only [dispatch] at h <;> first | exact ⟨_, rfl⟩ | simp_all

theorem dispatch_send_truthy (cfg : Option String) (api : UpstreamCall → Json)
    (body : Json) (ch ct : Json)
    (h : UpstreamCall.send ch ct ∈ (dispatch cfg api body).2) :
    ch.truthy = true := by
  cases body <;> simp only [dispatch] at h <;> try simp_all
  case obj kvs =>
    repeat' split at h
    all_goals simp_all [resolveChannel]

/-! ### Claim theorems -/

/-- C6: for every envelope with `method == "initialize"`, the dispatcher
performs no upstream call and returns
`{jsonrpc: "2.0", id, result: {serverInfo, capabilities}}` with the static
tool catalog, identical on every call (the `result` payload is the constant
`serverInfo`/`capabilities` pair, independent of configuration, oracle and
envelope). -/
theorem mcp_initialize_spec (cfg : Option String) (api : UpstreamCall → Json)
    (kvs : List (String × Json))
    (h : dictGetD kvs "method" Json.null = Json.str "initialize") :
    handle_mcp cfg api (.ok (.obj kvs)) =
      (⟨200, mkResult (dictGetD kvs "id" (Json.str "unknown"))
        (Json.obj [("serverInfo", serverInfo), ("capabilities", capabilities)])⟩, []) := by
  simp [handle_mcp, dispatch, h, isPyStrEq]

/-- C6 witness: a concrete `initialize` envelope. -/
theorem mcp_initialize_spec_witness :
    dictGetD [("method", Json.str "initialize"), ("id", Json.num 7)]
        "method" Json.null = Json.str "initialize"
    ∧ handle_mcp none (fun _ => Json.null)
        (.ok (Json.obj [("method", Json.str "initialize"), ("id", Json.num 7)])) =
      (⟨200, mkResult (Json.num 7)
        (Json.obj [("serverInfo", serverInfo), ("capabilities", capabilities)])⟩, []) :=
  ⟨rfl, mcp_initialize_spec none (fun _ => Json.null) _ rfl⟩

/-- C5: an `invoke` naming a tool outside `{send_message, get_messages}`
(including an absent `params.method`, which reads as `None`) yields a
`-32601` error naming the tool, and an envelope whose top-level method is
neither `"initialize"` nor `"invoke"` (including an absent method) yields a
`-32601` error naming the method; absence is just a non-matching name. -/
theorem mcp_unknown_method_spec :
    (∀ (cfg : Option String) (api : UpstreamCall → Json)
        (kvs : List (String × Json)),
      dictGetD kvs "method" Json.null ≠ Json.str "invoke" →
      dictGetD kvs "method" Json.null ≠ Json.str "initialize" →
      handle_mcp cfg api (.ok (.obj kvs)) =
        (⟨200, rpcError (dictGetD kvs "id" (Json.str "unknown")) (-32601)
          ("Método MCP não encontrado: " ++ (dictGetD kvs "method" Json.null).pyStr)⟩, []))
    ∧
    (∀ (cfg : Option String) (api : UpstreamCall → Json)
        (kvs pkvs : List (String × Json)),
      dictGetD kvs "method" Json.null = Json.str "invoke" →
      dictGetD kvs "params" (Json.obj []) = Json.obj pkvs →
      dictGetD pkvs "method" Json.null ≠ Json.str "send_message" →
      dictGetD pkvs "method" Json.null ≠ Json.str "get_messages" →
      handle_mcp cfg api (.ok (.obj kvs)) =
        (⟨200, rpcError (dictGetD kvs "id" (Json.str "unknown")) (-32601)
          ("Método não encontrado: " ++ (dictGetD pkvs "method" Json.null).pyStr)⟩, [])) := by
  constructor
  · intro cfg api kvs h1 h2
    simp [handle_mcp, dispatch, isPyStrEq_eq_false h1, isPyStrEq_eq_false h2]
  · intro cfg api kvs pkvs h1 h2 h3 h4
    simp [handle_mcp, dispatch, h1, h2, pyGetD, isPyStrEq_str,
      isPyStrEq_eq_false h3, isPyStrEq_eq_false h4]

/-- C5 witness: top-level method `"shutdown"` and tool
`"delete_everything"`, per the spec examples. -/
theorem mcp_unknown_method_spec_witness :
    handle_mcp none (fun _ => Json.null)
      (.ok (Json.obj [("method", Json.str "shutdown"), ("id", Json.str "9")])) =
      (⟨200, rpcError (Json.str "9") (-32601)
        "Método MCP não encontrado: shutdown"⟩, [])
    ∧ handle_mcp none (fun _ => Json.null)
      (.ok (Json.obj [("method", Json.str "invoke"), ("id", Json.str "10"),
        ("params", Json.obj [("method", Json.str "delete_everything"),
          ("arguments", Json.obj [])])])) =
      (⟨200, rpcError (Json.str "10") (-32601)
        "Método não encontrado: delete_everything"⟩, []) :=
  ⟨mcp_unknown_method_spec.1 none (fun _ => Json.null)
     [("method", Json.str "shutdown"), ("id", Json.str "9")]
     (by simp [dictGetD]) (by simp [dictGetD]),
   mcp_unknown_method_spec.2 none (fun _ => Json.null)
     [("method", Json.str "invoke"), ("id", Json.str "10"),
      ("params", Json.obj [("method", Json.str "delete_everything"),
        ("arguments", Json.obj [])])]
     [("method", Json.str "delete_everything"), ("arguments", Json.obj [])]
     rfl rfl (by simp [dictGetD]) (by simp [dictGetD])⟩

/-- C2: when the upstream client returns `{error: s}` to the `send_message`
or the `get_messages` branch, the dispatcher returns (as an ordinary
status-200 body) a JSON-RPC error with code `-32000` whose message is
exactly the upstream string `s`. -/
theorem mcp_upstream_error_spec :
    (∀ (cfg : Option String) (api : UpstreamCall → Json)
        (kvs pkvs akvs : List (String × Json)) (s : String),
      dictGetD kvs "method" Json.null = Json.str "invoke" →
      dictGetD kvs "params" (Json.obj []) = Json.obj pkvs →
      dictGetD pkvs "method" Json.null = Json.str "send_message" →
      dictGetD pkvs "arguments" (Json.obj []) = Json.obj akvs →
      (resolveChannel cfg (dictGetD akvs "channel_id" Json.null)).truthy = true →
      api (.send (resolveChannel cfg (dictGetD akvs "channel_id" Json.null))
            (dictGetD akvs "content" Json.null)) = errorDict s →
      handle_mcp cfg api (.ok (.obj kvs)) =
        (⟨200, rpcError (dictGetD kvs "id" (Json.str "unknown")) (-32000) s⟩,
         [UpstreamCall.send (resolveChannel cfg (dictGetD akvs "channel_id" Json.null))
           (dictGetD akvs "content" Json.null)]))
    ∧
    (∀ (cfg : Option String) (api : UpstreamCall → Json)
        (kvs pkvs akvs : List (String × Json)) (s : String),
      dictGetD kvs "method" Json.null = Json.str "invoke" →
      dictGetD kvs "params" (Json.obj []) = Json.obj pkvs →
      dictGetD pkvs "method" Json.null = Json.str "get_messages" →
      dictGetD pkvs "arguments" (Json.obj []) = Json.obj akvs →
      api (.getMessages (dictGetD akvs "channel_id" Json.null)
            (dictGetD akvs "limit" (Json.num 10))) = errorDict s →
      handle_mcp cfg api (.ok (.obj kvs)) =
        (⟨200, rpcError (dictGetD kvs "id" (Json.str "unknown")) (-32000) s⟩,
         [UpstreamCall.getMessages (dictGetD akvs "channel_id" Json.null)
           (dictGetD akvs "limit" (Json.num 10))])) := by
  constructor
  · intro cfg api kvs pkvs akvs s h1 h2 h3 h4 h5 h6
    simp [handle_mcp, dispatch, h1, h2, h3, h4, h5, h6, pyGetD, isPyStrEq_str,
      pyIn_errorDict, pyIndexStr_errorDict, rpcError]
  · intro cfg api kvs pkvs akvs s h1 h2 h3 h4 h5
    simp [handle_mcp, dispatch, h1, h2, h3, h4, h5, pyGetD, isPyStrEq_str,
      dictErrorValue_errorDict, rpcError]

/-- C2 witness: `send_message` on channel `"123"` with the upstream
answering `{error: "rate limited"}`, and `get_messages` with the upstream
answering `{error: "boom"}`. -/
theorem mcp_upstream_error_spec_witness :
    handle_mcp none (fun _ => errorDict "rate limited")
      (.ok (Json.obj [("method", Json.str "invoke"), ("id", Json.num 3),
        ("params", Json.obj [("method", Json.str "send_message"),
          ("arguments", Json.obj [("channel_id", Json.str "123"),
            ("content", Json.str "hi")])])])) =
      (⟨200, rpcError (Json.num 3) (-32000) "rate limited"⟩,
       [UpstreamCall.send (Json.str "123") (Json.str "hi")])
    ∧ handle_mcp none (fun _ => errorDict "boom")
      (.ok (Json.obj [("method", Json.str "invoke"), ("id", Json.num 4),
        ("params", Json.obj [("method", Json.str "get_messages"),
          ("arguments", Json.obj [("channel_id", Json.str "123")])])])) =
      (⟨200, rpcError (Json.num 4) (-32000) "boom"⟩,
       [UpstreamCall.getMessages (Json.str "123") (Json.num 10)]) :=
  ⟨mcp_upstream_error_spec.1 none (fun _ => errorDict "rate limited")
     [("method", Json.str "invoke"), ("id", Json.num 3),
      ("params", Json.obj [("method", Json.str "send_message"),
        ("arguments", Json.obj [("channel_id", Json.str "123"),
          ("content", Json.str "hi")])])]
     [("method", Json.str "send_message"),
      ("arguments", Json.obj [("channel_id", Json.str "123"),
        ("content", Json.str "hi")])]
     [("channel_id", Json.str "123"), ("content", Json.str "hi")]
     "rate limited" rfl rfl rfl rfl rfl rfl,
   mcp_upstream_error_spec.2 none (fun _ => errorDict "boom")
     [("method", Json.str "invoke"), ("id", Json.num 4),
      ("params", Json.obj [("method", Json.str "get_messages"),
        ("arguments", Json.obj [("channel_id", Json.str "123")])])]
     [("method", Json.str "get_messages"),
      ("arguments", Json.obj [("channel_id", Json.str "123")])]
     [("channel_id", Json.str "123")]
     "boom" rfl rfl rfl rfl rfl⟩

/-- C3: `send_message` resolves the channel in the fixed order: a truthy
explicit `arguments.channel_id` (in particular a non-empty string) is used
as passed, whatever the configured default; otherwise a non-empty
configured default is used; when neither resolves to a truthy channel the
dispatcher answers `-32000` and performs no upstream call. -/
theorem mcp_send_channel_resolution :
    (∀ (cfg : Option String) (api : UpstreamCall → Json)
        (kvs pkvs akvs : List (String × Json)) (c : String),
      dictGetD kvs "method" Json.null = Json.str "invoke" →
      dictGetD kvs "params" (Json.obj []) = Json.obj pkvs →
      dictGetD pkvs "method" Json.null = Json.str "send_message" →
      dictGetD pkvs "arguments" (Json.obj []) = Json.obj akvs →
      dictGetD akvs "channel_id" Json.null = Json.str c →
      c ≠ "" →
      (handle_mcp cfg api (.ok (.obj kvs))).2 =
        [UpstreamCall.send (Json.str c) (dictGetD akvs "content" Json.null)])
    ∧
    (∀ (api : UpstreamCall → Json)
        (kvs pkvs akvs : List (String × Json)) (d : String),
      dictGetD kvs "method" Json.null = Json.str "invoke" →
      dictGetD kvs "params" (Json.obj []) = Json.obj pkvs →
      dictGetD pkvs "method" Json.null = Json.str "send_message" →
      dictGetD pkvs "arguments" (Json.obj []) = Json.obj akvs →
      (dictGetD akvs "channel_id" Json.null).truthy = false →
      d ≠ "" →
      (handle_mcp (some d) api (.ok (.obj kvs))).2 =
        [UpstreamCall.send (Json.str d) (dictGetD akvs "content" Json.null)])
    ∧
    (∀ (cfg : Option String) (api : UpstreamCall → Json)
        (kvs pkvs akvs : List (String × Json)),
      dictGetD kvs "method" Json.null = Json.str "invoke" →
      dictGetD kvs "params" (Json.obj []) = Json.obj pkvs →
      dictGetD pkvs "method" Json.null = Json.str "send_message" →
      dictGetD pkvs "arguments" (Json.obj []) = Json.obj akvs →
      (resolveChannel cfg (dictGetD akvs "channel_id" Json.null)).truthy = false →
      handle_mcp cfg api (.ok (.obj kvs)) =
        (⟨200, rpcError (dictGetD kvs "id" (Json.str "unknown")) (-32000)
          "Canal não especificado e canal padrão não configurado"⟩, [])) := by
  refine ⟨?_, ?_, ?_⟩
  · intro cfg api kvs pkvs akvs c h1 h2 h3 h4 hc hne
    have hres : resolveChannel cfg (dictGetD akvs "channel_id" Json.null) = Json.str c := by
      simp [resolveChannel, hc, truthy_str_ne hne]
    have htr : (Json.str c).truthy = true := truthy_str_ne hne
    cases hp : pyIn "error" (api (.send (Json.str c) (dictGetD akvs "content" Json.null))) with
    | error e =>
      simp [handle_mcp, dispatch, h1, h2, h3, h4, pyGetD, isPyStrEq_str, hres, htr, hp]
    | ok b =>
      cases b with
      | true =>
        cases hq : pyIndexStr (api (.send (Json.str c)
            (dictGetD akvs "content" Json.null))) "error" <;>
          simp [handle_mcp, dispatch, h1, h2, h3, h4, pyGetD, isPyStrEq_str,
            hres, htr, hp, hq]
      | false =>
        simp [handle_mcp, dispatch, h1, h2, h3, h4, pyGetD, isPyStrEq_str, hres, htr, hp]
  · intro api kvs pkvs akvs d h1 h2 h3 h4 hc hne
    have hres : resolveChannel (some d) (dictGetD akvs "channel_id" Json.null) = Json.str d := by
      simp [resolveChannel, hc]
    have htr : (Json.str d).truthy = true := truthy_str_ne hne
    cases hp : pyIn "error" (api (.send (Json.str d) (dictGetD akvs "content" Json.null))) with
    | error e =>
      simp [handle_mcp, dispatch, h1, h2, h3, h4, pyGetD, isPyStrEq_str, hres, htr, hp]
    | ok b =>
      cases b with
      | true =>
        cases hq : pyIndexStr (api (.send (Json.str d)
            (dictGetD akvs "content" Json.null))) "error" <;>
          simp [handle_mcp, dispatch, h1, h2, h3, h4, pyGetD, isPyStrEq_str,
            hres, htr, hp, hq]
      | false =>
        simp [handle_mcp, dispatch, h1, h2, h3, h4, pyGetD, isPyStrEq_str, hres, htr, hp]
  · intro cfg api kvs pkvs akvs h1 h2 h3 h4 hres
    simp [handle_mcp, dispatch, h1, h2, h3, h4, pyGetD, isPyStrEq_str, hres]

/-- C3 witness: an explicit channel `"123"` wins over the configured
default `"777"`, and with no explicit channel and no configured default the
call is rejected with `-32000` and no upstream call. -/
theorem mcp_send_channel_resolution_witness :
    (handle_mcp (some "777") (fun _ => Json.obj [])
      (.ok (Json.obj [("method", Json.str "invoke"), ("id", Json.num 1),
        ("params", Json.obj [("method", Json.str "send_message"),
          ("arguments", Json.obj [("channel_id", Json.str "123"),
            ("content", Json.str "hi")])])]))).2 =
      [UpstreamCall.send (Json.str "123") (Json.str "hi")]
    ∧ handle_mcp none (fun _ => Json.obj [])
      (.ok (Json.obj [("method", Json.str "invoke"), ("id", Json.num 2),
        ("params", Json.obj [("method", Json.str "send_message"),
          ("arguments", Json.obj [("content", Json.str "hi")])])])) =
      (⟨200, rpcError (Json.num 2) (-32000)
        "Canal não especificado e canal padrão não configurado"⟩, []) :=
  ⟨mcp_send_channel_resolution.1 (some "777") (fun _ => Json.obj [])
     [("method", Json.str "invoke"), ("id", Json.num 1),
      ("params", Json.obj [("method", Json.str "send_message"),
        ("arguments", Json.obj [("channel_id", Json.str "123"),
          ("content", Json.str "hi")])])]
     [("method", Json.str "send_message"),
      ("arguments", Json.obj [("channel_id", Json.str "123"),
        ("content", Json.str "hi")])]
     [("channel_id", Json.str "123"), ("content", Json.str "hi")]
     "123" rfl rfl rfl rfl rfl (by simp),
   mcp_send_channel_resolution.2.2 none (fun _ => Json.obj [])
     [("method", Json.str "invoke"), ("id", Json.num 2),
      ("params", Json.obj [("method", Json.str "send_message"),
        ("arguments", Json.obj [("content", Json.str "hi")])])]
     [("method", Json.str "send_message"),
      ("arguments", Json.obj [("content", Json.str "hi")])]
     [("content", Json.str "hi")]
     rfl rfl rfl rfl rfl⟩

/-- C1: a `get_messages` invoke always calls the upstream client with
exactly `arguments.channel_id` (never the configured default, whatever
`cfg` is) and with `arguments.limit` defaulting to `10`; when the upstream
returns a list of messages that all simplify, the response is status 200
with `{success: true, messages: [...]}` where the messages are the
simplifications in order, as many as came in, each an object with exactly
the fields `id`, `content`, `author: {username, bot}`, `timestamp`. -/
theorem mcp_get_messages_spec
    (cfg : Option String) (api : UpstreamCall → Json)
    (kvs pkvs akvs : List (String × Json))
    (h1 : dictGetD kvs "method" Json.null = Json.str "invoke")
    (h2 : dictGetD kvs "params" (Json.obj []) = Json.obj pkvs)
    (h3 : dictGetD pkvs "method" Json.null = Json.str "get_messages")
    (h4 : dictGetD pkvs "arguments" (Json.obj []) = Json.obj akvs) :
    (handle_mcp cfg api (.ok (.obj kvs))).2 =
      [UpstreamCall.getMessages (dictGetD akvs "channel_id" Json.null)
        (dictGetD akvs "limit" (Json.num 10))]
    ∧
    ∀ msgs simplified : List Json,
      api (.getMessages (dictGetD akvs "channel_id" Json.null)
            (dictGetD akvs "limit" (Json.num 10))) = Json.arr msgs →
      exceptMap simplifyMsgMCP msgs = .ok simplified →
      (handle_mcp cfg api (.ok (.obj kvs)) =
        (⟨200, mkResult (dictGetD kvs "id" (Json.str "unknown"))
          (Json.obj [("success", Json.bool true),
            ("messages", Json.arr simplified)])⟩,
         [UpstreamCall.getMessages (dictGetD akvs "channel_id" Json.null)
           (dictGetD akvs "limit" (Json.num 10))])
       ∧ simplified.length = msgs.length
       ∧ ∀ s ∈ simplified, ∃ i c u b t, s = Json.obj [("id", i), ("content", c),
           ("author", Json.obj [("username", u), ("bot", b)]),
           ("timestamp", t)]) := by
  constructor
  · cases hR : dictErrorValue (api (.getMessages (dictGetD akvs "channel_id" Json.null)
        (dictGetD akvs "limit" (Json.num 10)))) with
    | some m =>
      simp [handle_mcp, dispatch, h1, h2, h3, h4, pyGetD, isPyStrEq_str, hR]
    | none =>
      cases hI : pyIter (api (.getMessages (dictGetD akvs "channel_id" Json.null)
          (dictGetD akvs "limit" (Json.num 10)))) with
      | error e =>
        simp [handle_mcp, dispatch, h1, h2, h3, h4, pyGetD, isPyStrEq_str, hR, hI]
      | ok msgs =>
        cases hM : exceptMap simplifyMsgMCP msgs with
        | error e =>
          simp [handle_mcp, dispatch, h1, h2, h3, h4, pyGetD, isPyStrEq_str,
            hR, hI, hM]
        | ok simplified =>
          simp [handle_mcp, dispatch, h1, h2, h3, h4, pyGetD, isPyStrEq_str,
            hR, hI, hM]
  · intro msgs simplified hapi hmap
    refine ⟨?_, exceptMap_ok_length hmap, exceptMap_simplify_shape hmap⟩
    simp [handle_mcp, dispatch, h1, h2, h3, h4, pyGetD, isPyStrEq_str,
      hapi, hmap, dictErrorValue, pyIter]

/-- C1 witness: `{channel_id: "123", limit: 2}` with two upstream messages
carrying upstream-only fields (`embeds`, `pinned`); exactly two simplified
messages come back, in order, stripped to the fixed field set. -/
theorem mcp_get_messages_spec_witness :
    exceptMap simplifyMsgMCP
      [Json.obj [("id", Json.str "m1"), ("content", Json.str "oi"),
        ("author", Json.obj [("id", Json.str "u1"), ("username", Json.str "ana"),
          ("bot", Json.bool false)]),
        ("timestamp", Json.str "t1"), ("embeds", Json.arr []),
        ("pinned", Json.bool true)],
       Json.obj [("id", Json.str "m2"), ("content", Json.str "ola"),
        ("author", Json.obj [("username", Json.str "b"), ("bot", Json.bool true)]),
        ("timestamp", Json.str "t2"), ("embeds", Json.arr [Json.obj []])]] =
      .ok [Json.obj [("id", Json.str "m1"), ("content", Json.str "oi"),
            ("author", Json.obj [("username", Json.str "ana"), ("bot", Json.bool false)]),
            ("timestamp", Json.str "t1")],
           Json.obj [("id", Json.str "m2"), ("content", Json.str "ola"),
            ("author", Json.obj [("username", Json.str "b"), ("bot", Json.bool true)]),
            ("timestamp", Json.str "t2")]]
    ∧
    (handle_mcp none
        (fun _ => Json.arr
          [Json.obj [("id", Json.str "m1"), ("content", Json.str "oi"),
            ("author", Json.obj [("id", Json.str "u1"), ("username", Json.str "ana"),
              ("bot", Json.bool false)]),
            ("timestamp", Json.str "t1"), ("embeds", Json.arr []),
            ("pinned", Json.bool true)],
           Json.obj [("id", Json.str "m2"), ("content", Json.str "ola"),
            ("author", Json.obj [("username", Json.str "b"), ("bot", Json.bool true)]),
            ("timestamp", Json.str "t2"), ("embeds", Json.arr [Json.obj []])]])
        (.ok (Json.obj [("method", Json.str "invoke"), ("id", Json.num 5),
          ("params", Json.obj [("method", Json.str "get_messages"),
            ("arguments", Json.obj [("channel_id", Json.str "123"),
              ("limit", Json.num 2)])])])) =
      (⟨200, mkResult (Json.num 5)
        (Json.obj [("success", Json.bool true),
          ("messages", Json.arr
            [Json.obj [("id", Json.str "m1"), ("content", Json.str "oi"),
              ("author", Json.obj [("username", Json.str "ana"), ("bot", Json.bool false)]),
              ("timestamp", Json.str "t1")],
             Json.obj [("id", Json.str "m2"), ("content", Json.str "ola"),
              ("author", Json.obj [("username", Json.str "b"), ("bot", Json.bool true)]),
              ("timestamp", Json.str "t2")]])])⟩,
       [UpstreamCall.getMessages (Json.str "123") (Json.num 2)])
     ∧ ([Json.obj [("id", Json.str "m1"), ("content", Json.str "oi"),
          ("author", Json.obj [("username", Json.str "ana"), ("bot", Json.bool false)]),
          ("timestamp", Json.str "t1")],
         Json.obj [("id", Json.str "m2"), ("content", Json.str "ola"),
          ("author", Json.obj [("username", Json.str "b"), ("bot", Json.bool true)]),
          ("timestamp", Json.str "t2")]] : List Json).length = 2
     ∧ ∀ s ∈ ([Json.obj [("id", Json.str "m1"), ("content", Json.str "oi"),
          ("author", Json.obj [("username", Json.str "ana"), ("bot", Json.bool false)]),
          ("timestamp", Json.str "t1")],
         Json.obj [("id", Json.str "m2"), ("content", Json.str "ola"),
          ("author", Json.obj [("username", Json.str "b"), ("bot", Json.bool true)]),
          ("timestamp", Json.str "t2")]] : List Json),
        ∃ i c u b t, s = Json.obj [("id", i), ("content", c),
          ("author", Json.obj [("username", u), ("bot", b)]), ("timestamp", t)]) :=
  ⟨rfl,
   (mcp_get_messages_spec none
     (fun _ => Json.arr
       [Json.obj [("id", Json.str "m1"), ("content", Json.str "oi"),
         ("author", Json.obj [("id", Json.str "u1"), ("username", Json.str "ana"),
           ("bot", Json.bool false)]),
         ("timestamp", Json.str "t1"), ("embeds", Json.arr []),
         ("pinned", Json.bool true)],
        Json.obj [("id", Json.str "m2"), ("content", Json.str "ola"),
         ("author", Json.obj [("username", Json.str "b"), ("bot", Json.bool true)]),
         ("timestamp", Json.str "t2"), ("embeds", Json.arr [Json.obj []])]])
     [("method", Json.str "invoke"), ("id", Json.num 5),
      ("params", Json.obj [("method", Json.str "get_messages"),
        ("arguments", Json.obj [("channel_id", Json.str "123"),
          ("limit", Json.num 2)])])]
     [("method", Json.str "get_messages"),
      ("arguments", Json.obj [("channel_id", Json.str "123"),
        ("limit", Json.num 2)])]
     [("channel_id", Json.str "123"), ("limit", Json.num 2)]
     rfl rfl rfl rfl).2
     [Json.obj [("id", Json.str "m1"), ("content", Json.str "oi"),
        ("author", Json.obj [("id", Json.str "u1"), ("username", Json.str "ana"),
          ("bot", Json.bool false)]),
        ("timestamp", Json.str "t1"), ("embeds", Json.arr []),
        ("pinned", Json.bool true)],
      Json.obj [("id", Json.str "m2"), ("content", Json.str "ola"),
        ("author", Json.obj [("username", Json.str "b"), ("bot", Json.bool true)]),
        ("timestamp", Json.str "t2"), ("embeds", Json.arr [Json.obj []])]]
     [Json.obj [("id", Json.str "m1"), ("content", Json.str "oi"),
        ("author", Json.obj [("username", Json.str "ana"), ("bot", Json.bool false)]),
        ("timestamp", Json.str "t1")],
      Json.obj [("id", Json.str "m2"), ("content", Json.str "ola"),
        ("author", Json.obj [("username", Json.str "b"), ("bot", Json.bool true)]),
        ("timestamp", Json.str "t2")]]
     rfl rfl⟩

/-- C4 counterexample: an envelope that carries `id: "abc"` (recovered by
the parser: the body is a well-formed dict) still gets the sentinel
`"unknown"` back when a later step raises — here the upstream returns the
integer `5`, so the `for msg in result` loop raises `TypeError` and the
`except` clause builds the 500 body with the hard-coded id `"unknown"`. -/
theorem mcp_id_echo_counterexample :
    (handle_mcp none (fun _ => Json.num 5)
      (.ok (Json.obj [("method", Json.str "invoke"), ("id", Json.str "abc"),
        ("params", Json.obj [("method", Json.str "get_messages"),
          ("arguments", Json.obj [])])]))).1 =
      ⟨500, internalError "TypeError: int object is not iterable"⟩
    ∧ dictGetD [("method", Json.str "invoke"), ("id", Json.str "abc"),
        ("params", Json.obj [("method", Json.str "get_messages"),
          ("arguments", Json.obj [])])] "id" (Json.str "unknown") = Json.str "abc"
    ∧ lookupId (internalError "TypeError: int object is not iterable") =
        some (Json.str "unknown")
    ∧ Json.str "unknown" ≠ Json.str "abc" :=
  ⟨rfl, rfl, rfl, by simp⟩

/-- C4 amended: every status-200 response echoes the envelope's `id`
verbatim (defaulting to the sentinel `"unknown"` when the envelope has
none), while every status-500 internal-error response carries the sentinel
`"unknown"` unconditionally — even when the envelope's real id had been
recovered before the failure. -/
theorem mcp_id_echo_amended (cfg : Option String) (api : UpstreamCall → Json)
    (reqBody : Except String Json) :
    ((handle_mcp cfg api reqBody).1.status = 500 ∧
      lookupId (handle_mcp cfg api reqBody).1.body = some (Json.str "unknown"))
    ∨ ((handle_mcp cfg api reqBody).1.status = 200 ∧
      ∃ kvs, reqBody = .ok (Json.obj kvs) ∧
        lookupId (handle_mcp cfg api reqBody).1.body =
          some (dictGetD kvs "id" (Json.str "unknown"))) := by
  cases reqBody with
  | error e => exact .inl ⟨rfl, rfl⟩
  | ok body =>
    cases hd : dispatch cfg api body with
    | mk res calls =>
      cases res with
      | error e =>
        exact .inl ⟨by simp [handle_mcp, hd], by simp [handle_mcp, hd, lookupId_internalError]⟩
      | ok r =>
        obtain ⟨kvs, hkvs⟩ := dispatch_ok_obj cfg api body r calls hd
        subst hkvs
        exact .inr ⟨by simp [handle_mcp, hd], kvs, rfl,
          by simp [handle_mcp, hd, dispatch_ok_id cfg api kvs r calls hd]⟩

/-- C7 counterexample: a response with the non-2xx status 304 and a valid
JSON body is passed through `raise_for_status` (which only raises for
400-599), so `send_message` returns the payload unchanged instead of a
uniform `{error: ...}` value. -/
theorem upstream_non2xx_counterexample :
    DiscordAPI.send_message (.resp 304 "304 Not Modified"
        (.ok (Json.obj [("ok", Json.bool true)]))) =
      Json.obj [("ok", Json.bool true)]
    ∧ raiseForStatus 304 = false
    ∧ dictErrorValue (Json.obj [("ok", Json.bool true)]) = none :=
  ⟨rfl, rfl, rfl⟩

/-- C7 amended: each of the three client operations is a total function of
the transport outcome (no exception crosses the boundary): it returns the
parsed upstream payload unchanged when the HTTP status is outside 400-599
and the body parses (and, for the two list operations, supports `len`),
and otherwise the uniform `{error: message}` dictionary. -/
theorem upstream_error_as_value_amended (out : HttpOutcome) :
    ((∃ m, DiscordAPI.send_message out = errorDict m) ∨
      (∃ s h j, out = .resp s h (.ok j) ∧ raiseForStatus s = false ∧
        DiscordAPI.send_message out = j))
    ∧
    ((∃ m, DiscordAPI.get_channel_messages out = errorDict m) ∨
      (∃ s h j, out = .resp s h (.ok j) ∧ raiseForStatus s = false ∧
        j.hasLen = true ∧ DiscordAPI.get_channel_messages out = j))
    ∧
    ((∃ m, DiscordAPI.get_guild_channels out = errorDict m) ∨
      (∃ s h j, out = .resp s h (.ok j) ∧ raiseForStatus s = false ∧
        j.hasLen = true ∧ DiscordAPI.get_guild_channels out = j)) := by
  refine ⟨?_, ?_, ?_⟩
  · cases out with
    | exn m => exact .inl ⟨m, rfl⟩
    | resp s hm body =>
      cases hb : raiseForStatus s with
      | true => exact .inl ⟨hm, by simp [DiscordAPI.send_message, hb]⟩
      | false =>
        cases body with
        | error m => exact .inl ⟨m, by simp [DiscordAPI.send_message, hb]⟩
        | ok j => exact .inr ⟨s, hm, j, rfl, hb, by simp [DiscordAPI.send_message, hb]⟩
  · cases out with
    | exn m => exact .inl ⟨m, rfl⟩
    | resp s hm body =>
      cases hb : raiseForStatus s with
      | true => exact .inl ⟨hm, by simp [DiscordAPI.get_channel_messages, hb]⟩
      | false =>
        cases body with
        | error m => exact .inl ⟨m, by simp [DiscordAPI.get_channel_messages, hb]⟩
        | ok j =>
          cases hl : j.hasLen with
          | false =>
            exact .inl ⟨noLenMsg j, by simp [DiscordAPI.get_channel_messages, hb, hl]⟩
          | true =>
            exact .inr ⟨s, hm, j, rfl, hb, hl,
              by simp [DiscordAPI.get_channel_messages, hb, hl]⟩
  · cases out with
    | exn m => exact .inl ⟨m, rfl⟩
    | resp s hm body =>
      cases hb : raiseForStatus s with
      | true => exact .inl ⟨hm, by simp [DiscordAPI.get_guild_channels, hb]⟩
      | false =>
        cases body with
        | error m => exact .inl ⟨m, by simp [DiscordAPI.get_guild_channels, hb]⟩
        | ok j =>
          cases hl : j.hasLen with
          | false =>
            exact .inl ⟨noLenMsg j, by simp [DiscordAPI.get_guild_channels, hb, hl]⟩
          | true =>
            exact .inr ⟨s, hm, j, rfl, hb, hl,
              by simp [DiscordAPI.get_guild_channels, hb, hl]⟩

/-- C8: with `DISCORD_TOKEN` absent (`None`), `DiscordAPI.__init__`
evaluates `token[:5]` in its log line and raises `TypeError`, so the
module-level `discord_api = DiscordAPI(DISCORD_TOKEN)` aborts startup —
contradicting the code's own comment that the server must keep running.
With a token present, construction succeeds. -/
theorem discord_api_init_none_raises :
    DiscordAPI.init none = .error "TypeError: NoneType object is not subscriptable"
    ∧ DiscordAPI.init (some "abcdef") =
        .ok { token := "abcdef", api_base := "https://discord.com/api/v10",
              authHeader := "Bot abcdef" } :=
  ⟨rfl, rfl⟩

/-- C9 counterexample: a `send_message` invoke with a channel but no
`content` still reaches the upstream client, passing `None` (not a
non-empty string) as the content — the dispatcher never validates
`arguments.content`. -/
theorem mcp_send_content_unchecked_counterexample :
    (handle_mcp none (fun _ => Json.obj [])
      (.ok (Json.obj [("method", Json.str "invoke"), ("id", Json.num 1),
        ("params", Json.obj [("method", Json.str "send_message"),
          ("arguments", Json.obj [("channel_id", Json.str "123")])])]))).2 =
      [UpstreamCall.send (Json.str "123") Json.null]
    ∧ Json.null.isNonEmptyStr = false :=
  ⟨rfl, rfl⟩

/-- C9 amended: at the single `send_message` call site the resolved
channel id has been checked truthy (a present string channel is non-empty)
before the upstream client is entered; `arguments.content` is passed
through unvalidated. -/
theorem mcp_send_channel_checked (cfg : Option String) (api : UpstreamCall → Json)
    (reqBody : Except String Json) (ch ct : Json)
    (h : UpstreamCall.send ch ct ∈ (handle_mcp cfg api reqBody).2) :
    ch.truthy = true := by
  cases reqBody with
  | error e => simp [handle_mcp] at h
  | ok body =>
    apply dispatch_send_truthy cfg api body ch ct
    have heq : (handle_mcp cfg api (.ok body)).2 = (dispatch cfg api body).2 := by
      rcases hdp : dispatch cfg api body with ⟨res, calls⟩
      simp only [handle_mcp, hdp]
      cases res <;> rfl
    rwa [heq] at h

/-- C9 amended witness: a concrete `send_message` invoke whose recorded
upstream call carries the checked channel `"123"`. -/
theorem mcp_send_channel_checked_witness :
    UpstreamCall.send (Json.str "123") (Json.str "hi") ∈
      (handle_mcp none (fun _ => Json.obj [])
        (.ok (Json.obj [("method", Json.str "invoke"), ("id", Json.num 1),
          ("params", Json.obj [("method", Json.str "send_message"),
            ("arguments", Json.obj [("channel_id", Json.str "123"),
              ("content", Json.str "hi")])])]))).2
    ∧ (Json.str "123").truthy = true :=
  ⟨List.Mem.head _,
   mcp_send_channel_checked none (fun _ => Json.obj [])
     (.ok (Json.obj [("method", Json.str "invoke"), ("id", Json.num 1),
       ("params", Json.obj [("method", Json.str "send_message"),
         ("arguments", Json.obj [("channel_id", Json.str "123"),
           ("content", Json.str "hi")])])]))
     (Json.str "123") (Json.str "hi") (List.Mem.head _)⟩

/-- C10: the REST `/get-messages` simplification and the MCP
`get_messages` simplification succeed on exactly the same messages and
then agree on `id`, `content`, `author.username`, `author.bot` and
`timestamp`; they differ in exactly one field — the REST author object
carries `id` while the MCP author object has no `id` key, for every
input. -/
theorem simplify_rest_vs_mcp (msg : Json) :
    ((∃ r, simplifyMsgREST msg = .ok r) ↔ (∃ m, simplifyMsgMCP msg = .ok m))
    ∧ ∀ r m, simplifyMsgREST msg = .ok r → simplifyMsgMCP msg = .ok m →
      ∃ i c aid u b t,
        r = Json.obj [("id", i), ("content", c),
          ("author", Json.obj [("id", aid), ("username", u), ("bot", b)]),
          ("timestamp", t)] ∧
        m = Json.obj [("id", i), ("content", c),
          ("author", Json.obj [("username", u), ("bot", b)]),
          ("timestamp", t)] := by
  cases msg
  case obj mkvs =>
    cases ha : dictGetD mkvs "author" (Json.obj [])
    case obj akvs =>
      refine ⟨by simp [simplifyMsgREST, simplifyMsgMCP, ha], ?_⟩
      intro r m hr hm
      simp only [simplifyMsgREST, simplifyMsgMCP, ha, Except.ok.injEq] at hr hm
      exact ⟨_, _, _, _, _, _, hr.symm, hm.symm⟩
    all_goals
      refine ⟨⟨fun hx => ?_, fun hx => ?_⟩, fun r m hr hm => ?_⟩
      · obtain ⟨r, hr⟩ := hx
        simp [simplifyMsgREST, ha] at hr
      · obtain ⟨m, hm⟩ := hx
        simp [simplifyMsgMCP, ha] at hm
      · simp [simplifyMsgREST, ha] at hr
  all_goals
    refine ⟨⟨fun hx => ?_, fun hx => ?_⟩, fun r m hr hm => ?_⟩
    · obtain ⟨r, hr⟩ := hx
      simp [simplifyMsgREST] at hr
    · obtain ⟨m, hm⟩ := hx
      simp [simplifyMsgMCP] at hm
    · simp [simplifyMsgREST] at hr

/-- C10 witness: a message whose upstream author carries an `id` and which
carries an upstream-only field; REST keeps `author.id`, MCP drops it, all
shared fields agree. -/
theorem simplify_rest_vs_mcp_witness :
    simplifyMsgREST (Json.obj [("id", Json.str "m1"), ("content", Json.str "x"),
        ("author", Json.obj [("id", Json.str "u9"), ("username", Json.str "ana"),
          ("bot", Json.bool false)]),
        ("timestamp", Json.str "t"), ("pinned", Json.bool true)]) =
      .ok (Json.obj [("id", Json.str "m1"), ("content", Json.str "x"),
        ("author", Json.obj [("id", Json.str "u9"), ("username", Json.str "ana"),
          ("bot", Json.bool false)]),
        ("timestamp", Json.str "t")])
    ∧ simplifyMsgMCP (Json.obj [("id", Json.str "m1"), ("content", Json.str "x"),
        ("author", Json.obj [("id", Json.str "u9"), ("username", Json.str "ana"),
          ("bot", Json.bool false)]),
        ("timestamp", Json.str "t"), ("pinned", Json.bool true)]) =
      .ok (Json.obj [("id", Json.str "m1"), ("content", Json.str "x"),
        ("author", Json.obj [("username", Json.str "ana"), ("bot", Json.bool false)]),
        ("timestamp", Json.str "t")])
    ∧ ∃ i c aid u b t,
        Json.obj [("id", Json.str "m1"), ("content", Json.str "x"),
          ("author", Json.obj [("id", Json.str "u9"), ("username", Json.str "ana"),
            ("bot", Json.bool false)]),
          ("timestamp", Json.str "t")] =
          Json.obj [("id", i), ("content", c),
            ("author", Json.obj [("id", aid), ("username", u), ("bot", b)]),
            ("timestamp", t)] ∧
        Json.obj [("id", Json.str "m1"), ("content", Json.str "x"),
          ("author", Json.obj [("username", Json.str "ana"), ("bot", Json.bool false)]),
          ("timestamp", Json.str "t")] =
          Json.obj [("id", i), ("content", c),
            ("author", Json.obj [("username", u), ("bot", b)]),
            ("timestamp", t)] :=
  ⟨rfl, rfl,
   (simplify_rest_vs_mcp (Json.obj [("id", Json.str "m1"), ("content", Json.str "x"),
      ("author", Json.obj [("id", Json.str "u9"), ("username", Json.str "ana"),
        ("bot", Json.bool false)]),
      ("timestamp", Json.str "t"), ("pinned", Json.bool true)])).2
     (Json.obj [("id", Json.str "m1"), ("content", Json.str "x"),
       ("author", Json.obj [("id", Json.str "u9"), ("username", Json.str "ana"),
         ("bot", Json.bool false)]),
       ("timestamp", Json.str "t")])
     (Json.obj [("id", Json.str "m1"), ("content", Json.str "x"),
       ("author", Json.obj [("username", Json.str "ana"), ("bot", Json.bool false)]),
       ("timestamp", Json.str "t")])
     rfl rfl⟩
